import Mathlib

/-!
Shallow embedding of `chainlink-scheduler/functions_request.py`:
the transaction submission and event-correlation engine.

The external chain RPC collaborator is modelled as an oracle `Env`
recording, for each external read the program performs, the value that
read returns (or that it raises).  Pure helpers (`build_fees`, the hex
normalization, the success classification) are translated directly;
the two polling loops (`wait_for_receipt`, the Response-event wait in
`main`) recurse over a finite trace of per-iteration oracle answers,
tracking elapsed time explicitly (each sleep advances the clock by the
source's fixed delay; query latency is taken as zero).
-/

/-- Wei per n gwei, as in `w3.to_wei(n, "gwei")`. -/
def gwei (n : Nat) : Nat := n * 10 ^ 9

/-- EIP-1559 fee fields, as returned by `build_fees`. -/
structure FeeQuote where
  maxFeePerGas : Nat
  maxPriorityFeePerGas : Nat
deriving DecidableEq, Repr

/-- `build_fees(w3)`: `base = w3.eth.gas_price` if the read succeeds,
else the fixed 10-gwei default; priority is the fixed 1-gwei constant;
max fee is `int(base * 2) + int(max_priority)`.  `gasPrice = none`
models the read raising. -/
def build_fees (gasPrice : Option Nat) : FeeQuote :=
  let base := gasPrice.getD (gwei 10)
  let max_priority := gwei 1
  { maxFeePerGas := base * 2 + max_priority
    maxPriorityFeePerGas := max_priority }

/-- A transaction receipt: `receipt.get("status")` (absent key gives
`none`) and `receipt["blockNumber"]`. -/
structure Receipt where
  status : Option Nat
  blockNumber : Nat
deriving DecidableEq, Repr

/-- One answer of `w3.eth.get_transaction_receipt`:
`found r` = a receipt object is returned; `absent` = `None` is
returned; `notFound` = the provider raises `TransactionNotFound`;
`hardError` = any other exception (hard transport fault). -/
inductive QueryResult where
  | found (r : Receipt)
  | absent
  | notFound
  | hardError
deriving DecidableEq, Repr

/-- Result of the receipt-polling loop.  `pending` is a model
artifact: the oracle trace ended before the loop did. -/
inductive PollOutcome where
  | received (r : Receipt)
  | timedOut
  | transportError
  | pending
deriving DecidableEq, Repr

/-- `wait_for_receipt(w3, tx_hash, timeout_s)`: poll; a returned
receipt exits immediately; `None` and `TransactionNotFound` fall
through to the timeout check (`time.time() - start > timeout_s`,
strict) and then `time.sleep(2)`; any other exception propagates.
`elapsed` is the time since loop entry. -/
def wait_for_receipt (timeout_s : Nat) : List QueryResult → Nat → PollOutcome
  | [], _ => .pending
  | q :: rest, elapsed =>
    match q with
    | .found r => .received r
    | .hardError => .transportError
    | .absent | .notFound =>
      if timeout_s < elapsed then .timedOut
      else wait_for_receipt timeout_s rest (elapsed + 2)

/-- Whether a query answer is one of the two "not yet mined" shapes. -/
def QueryResult.isSoft : QueryResult → Bool
  | .absent => true
  | .notFound => true
  | _ => false

/-- Lower-case hex digit of `n % 16`, as in Python's `bytes.hex()`. -/
def hexDigit (n : Nat) : Char :=
  if n < 10 then Char.ofNat (48 + n) else Char.ofNat (87 + n)

/-- Two-hex-digit rendering of one byte. -/
def byteToHex (b : Nat) : String :=
  String.mk [hexDigit (b / 16 % 16), hexDigit (b % 16)]

/-- `bytes.hex()`: concatenation of the per-byte two-digit groups. -/
def bytesToHex : List Nat → String
  | [] => ""
  | b :: rest => byteToHex b ++ bytesToHex rest

/-- `err_hex = "0x" + err_bytes.hex()` (the `bytes` branch of the
normalization in `main`). -/
def err_hex (err_bytes : List Nat) : String :=
  "0x" ++ bytesToHex err_bytes

/-- The success flag computed in `main`:
`err_hex in ("0x", "0x00", "0x0000") or err_hex == "0x"`. -/
def classify_ok (h : String) : Bool :=
  (h == "0x" || h == "0x00" || h == "0x0000") || h == "0x"

/-- The contract call encoded into a transaction: `setSource(source)`
or `sendRequest(subscriptionId, args)`. -/
inductive CallData where
  | setSource (source : String)
  | sendRequest (subscriptionId : Nat) (args : List String)
deriving DecidableEq, Repr

/-- Whether a call is the `sendRequest` action call. -/
def CallData.isSendRequest : CallData → Bool
  | .sendRequest _ _ => true
  | _ => false

/-- The fields `build_transaction` assembles (the dict passed in
`main`, plus the target call): `from`, `nonce`, `chainId`, `gas`,
the two fee fields, the contract address and the encoded call. -/
structure BuiltTx where
  sender : String
  nonce : Nat
  chainId : Nat
  gas : Nat
  fees : FeeQuote
  toAddr : String
  call : CallData
deriving DecidableEq, Repr

/-- A decoded `Response` event: `requestId` (hex of the bytes32),
`response` (string) and `err` (raw bytes, one `Nat` per byte). -/
structure RespEvent where
  requestId : String
  response : String
  err : List Nat
deriving DecidableEq, Repr

/-- A raw log entry on the chain, as the provider stores it:
inclusion block, emitting address, first topic, and the event the
decoder would extract from it (`none` = `process_log` raises on this
entry). -/
structure ChainLog where
  blockNumber : Nat
  address : String
  topic0 : String
  event : Option RespEvent
deriving DecidableEq, Repr

/-- The topic constant `w3.keccak(text="Response(bytes32,string,bytes)").hex()`.
The hash itself is not computed; the constant is kept opaque — only
equality of topics matters to the filter. -/
def event_sig : String := "keccak(Response(bytes32,string,bytes))"

/-- Provider-side semantics of the `get_logs` filter `main` sends:
entries of the chain whose block lies in `[fromBlock, toBlock]`, whose
address is the consumer address and whose first topic is `event_sig`,
in chain order.  The filter never inspects a `requestId`. -/
def getLogsFilter (chain : List ChainLog) (fromBlock toBlock : Nat)
    (address : String) : List ChainLog :=
  chain.filter fun l =>
    decide (fromBlock ≤ l.blockNumber) && decide (l.blockNumber ≤ toBlock)
      && (l.address == address) && (l.topic0 == event_sig)

/-- One iteration of the Response-event wait: the `w3.eth.block_number`
read (re-read every iteration) and whether the `get_logs` call
succeeds (`queryOk = false` models the call raising). -/
structure EventIter where
  latest : Nat
  queryOk : Bool
deriving DecidableEq, Repr

/-- The engine's sole externally observed artifact: every `fail(...)`
payload shape in the source, the final success/failure JSON line, an
exception escaping `main` uncaught, and the model artifact of an
exhausted oracle trace. -/
inductive Outcome where
  | failMissingEnv (name : String)
  | failRpcNotResponding
  | failWrongChainId (got : Nat)
  | failSourceMissing
  | failStageRevert (stage : String) (txHash : String) (status : Option Nat)
  | failStageError (stage : String) (error : String)
  | failEventTimeout (txHash : String)
  | eventResult (ok : Bool) (txHash : String) (requestId : String)
      (response : String) (err : String)
  | uncaughtError (what : String)
  | outOfTrace
deriving DecidableEq, Repr

/-- The Response-event wait loop at the end of `main`: check
`time.time() - start_time > timeout_s` (600 s, strict) at the top;
re-read the latest block; `get_logs` with the fixed filter, any
exception giving `logs = []`; on a non-empty result decode `logs[0]`
(a decoder fault propagates uncaught) and print the classified
outcome; otherwise `time.sleep(3)` and loop. -/
def eventLoop (chain : List ChainLog) (consumer_address : String)
    (start_block : Nat) (txHash2 : String) :
    List EventIter → Nat → Outcome
  | [], _ => .outOfTrace
  | it :: rest, elapsed =>
    if 600 < elapsed then .failEventTimeout txHash2
    else
      let logs := if it.queryOk then
          getLogsFilter chain start_block it.latest consumer_address
        else []
      match logs with
      | [] => eventLoop chain consumer_address start_block txHash2 rest
          (elapsed + 3)
      | l :: _ =>
        match l.event with
        | none => .uncaughtError "process_log"
        | some evt =>
          .eventResult (classify_ok (err_hex evt.err)) txHash2
            evt.requestId evt.response (err_hex evt.err)

/-- CLI argument split: everything after the first `"--"`. -/
def parseArgs : List String → List String
  | [] => []
  | a :: rest => if a == "--" then rest else parseArgs rest

/-- The oracle for one run of `main`: the configuration inputs and,
for each external call the program performs, the answer that call
returns (`none` / `.error` meaning it raises).  Indexed reads
(`gasRead`, `nonceRead`, `sendResult`) give the answer of the k-th
such call, in program order; the source performs exactly one
gas-price read and two nonce reads. -/
structure Env where
  rpcUrl : String
  privateKey : String
  consumerAddressRaw : String
  subscriptionIdRaw : String
  /-- `Web3.to_checksum_address(CONSUMER_ADDRESS_RAW)`; `none` = raises. -/
  checksum : Option String
  /-- `int(SUBSCRIPTION_ID_RAW)`; `none` = raises. -/
  parseSubId : Option Nat
  /-- `w3.eth.chain_id`; `none` = raises. -/
  chainId : Option Nat
  /-- `acct.address` for the configured key. -/
  senderAddr : String
  /-- `Path("functions/source.js").exists()`. -/
  sourceExists : Bool
  sourceText : String
  argv : List String
  /-- k-th `w3.eth.gas_price` read; `none` = raises. -/
  gasRead : Nat → Option Nat
  /-- k-th `w3.eth.get_transaction_count(sender)` read. -/
  nonceRead : Nat → Nat
  /-- Result of the k-th build/sign/broadcast sequence: the returned
  transaction hash, or the message of the exception the sequence
  raises (caught by the stage's `except` clause). -/
  sendResult : Nat → Except String String
  /-- Successive `get_transaction_receipt` answers while waiting for
  the first transaction. -/
  receipt1Trace : List QueryResult
  /-- Likewise for the second transaction. -/
  receipt2Trace : List QueryResult
  /-- All log entries the provider holds. -/
  chain : List ChainLog
  /-- Per-iteration answers of the event wait loop. -/
  eventIters : List EventIter

/-- The `setSource` transaction `main` builds: nonce from the first
`get_transaction_count` read, fixed 700000 gas, the fee dict computed
once before stage 1. -/
def mkTx1 (env : Env) (cid : Nat) (consumer_address : String) : BuiltTx :=
  { sender := env.senderAddr
    nonce := env.nonceRead 0
    chainId := cid
    gas := 700000
    fees := build_fees (env.gasRead 0)
    toAddr := consumer_address
    call := .setSource env.sourceText }

/-- The `sendRequest` transaction `main` builds: nonce from the second
`get_transaction_count` read; the fee dict is the same one computed
before stage 1 (the source computes `fees` once, from gas-price read
number 0, and splices the same dict into both transactions). -/
def mkTx2 (env : Env) (cid : Nat) (consumer_address : String)
    (subId : Nat) : BuiltTx :=
  { sender := env.senderAddr
    nonce := env.nonceRead 1
    chainId := cid
    gas := 700000
    fees := build_fees (env.gasRead 0)
    toAddr := consumer_address
    call := .sendRequest subId (parseArgs env.argv) }

/-- `main(argv)`: the full run.  Returns the Outcome together with the
list of transactions built and handed to `send_tx`, in order (the
action log used to state that a stage was, or was never, attempted).
Mirrors the source's control flow: env-var checks, key normalization,
address checksum and subscription-id parse (both able to raise
uncaught), chain-id read and check against 11155111, source-file
check, one fee computation, then the two submit/confirm stages and
the event wait. -/
def mainRun (env : Env) : Outcome × List BuiltTx :=
  if env.rpcUrl == "" then (.failMissingEnv "SEPOLIA_RPC_URL", [])
  else if env.privateKey == "" then (.failMissingEnv "PRIVATE_KEY", [])
  else
    -- PRIVATE_KEY_FIXED: MetaMask often exports without the marker
    let _pkFixed := if env.privateKey.startsWith "0x" then env.privateKey
      else "0x" ++ env.privateKey
    if env.consumerAddressRaw == "" then (.failMissingEnv "CONSUMER_ADDRESS", [])
    else if env.subscriptionIdRaw == "" then
      (.failMissingEnv "SUBSCRIPTION_ID", [])
    else
      match env.checksum with
      | none => (.uncaughtError "to_checksum_address", [])
      | some consumer_address =>
        match env.parseSubId with
        | none => (.uncaughtError "int(SUBSCRIPTION_ID)", [])
        | some subscription_id =>
          match env.chainId with
          | none => (.failRpcNotResponding, [])
          | some chain_id =>
            if chain_id != 11155111 then (.failWrongChainId chain_id, [])
            else if !env.sourceExists then (.failSourceMissing, [])
            else
              let tx1 := mkTx1 env chain_id consumer_address
              -- 1) setSource
              match env.sendResult 0 with
              | .error e => (.failStageError "setSource" e, [tx1])
              | .ok tx_hash1 =>
                match wait_for_receipt 300 env.receipt1Trace 0 with
                | .pending => (.outOfTrace, [tx1])
                | .transportError =>
                  (.failStageError "setSource" "transport error", [tx1])
                | .timedOut =>
                  (.failStageError "setSource"
                    ("Timed out waiting for tx receipt: " ++ tx_hash1), [tx1])
                | .received receipt1 =>
                  if receipt1.status != some 1 then
                    (.failStageRevert "setSource" tx_hash1 receipt1.status, [tx1])
                  else
                    let tx2 := mkTx2 env chain_id consumer_address
                      subscription_id
                    -- 2) sendRequest
                    match env.sendResult 1 with
                    | .error e =>
                      (.failStageError "sendRequest" e, [tx1, tx2])
                    | .ok tx_hash2 =>
                      match wait_for_receipt 300 env.receipt2Trace 0 with
                      | .pending => (.outOfTrace, [tx1, tx2])
                      | .transportError =>
                        (.failStageError "sendRequest" "transport error",
                          [tx1, tx2])
                      | .timedOut =>
                        (.failStageError "sendRequest"
                          ("Timed out waiting for tx receipt: " ++ tx_hash2),
                          [tx1, tx2])
                      | .received receipt2 =>
                        if receipt2.status != some 1 then
                          (.failStageRevert "sendRequest" tx_hash2
                            receipt2.status, [tx1, tx2])
                        else
                          -- 3) wait for Response event
                          (eventLoop env.chain consumer_address
                            receipt2.blockNumber tx_hash2 env.eventIters 0,
                            [tx1, tx2])

/-- Modelled from the spec, for comparison with the source: the
spec's "computed fresh per transaction" fee policy, under which the
second transaction's FeeQuote would come from a new gas-price read
(read number 1) performed after the first transaction is confirmed.
The source has no such second read. -/
def freshSecondFeeQuote (env : Env) : FeeQuote :=
  build_fees (env.gasRead 1)

/-- A concrete healthy oracle for witnesses: every external call
succeeds, the first receipt arrives at once, the second after one
soft answer, and a matching Response log (empty error payload) shows
up on the second wait iteration. -/
def baseEnv : Env where
  rpcUrl := "https://rpc.example"
  privateKey := "ab"
  consumerAddressRaw := "0xc0ffee"
  subscriptionIdRaw := "7"
  checksum := some "0xC"
  parseSubId := some 7
  chainId := some 11155111
  senderAddr := "0xS"
  sourceExists := true
  sourceText := "source-js"
  argv := []
  gasRead := fun _ => some 100
  nonceRead := fun k => 5 + 4 * k
  sendResult := fun k => if k == 0 then Except.ok "0xt1" else Except.ok "0xt2"
  receipt1Trace := [QueryResult.found ⟨some 1, 10⟩]
  receipt2Trace := [QueryResult.absent, QueryResult.found ⟨some 1, 20⟩]
  chain := [⟨22, "0xC", event_sig, some ⟨"0xreq", "42", []⟩⟩]
  eventIters := [⟨19, true⟩, ⟨25, true⟩]

/-- `baseEnv` except that the Response event carries a three-byte
all-zero error payload. -/
def envAllZeroErr : Env :=
  { baseEnv with
    chain := [⟨22, "0xC", event_sig, some ⟨"0xreq", "42", [0, 0, 0]⟩⟩] }

/-- `baseEnv` except that the chain's gas price moves between the
first submission and the moment after the first confirmation: read 0
returns 100 wei, a fresh read after confirmation would return 999. -/
def envGasMoves : Env :=
  { baseEnv with
    gasRead := fun k => if k == 0 then some 100 else some 999 }

/-- `baseEnv` except that the first transaction is mined with a
revert status. -/
def envConfigRevert : Env :=
  { baseEnv with receipt1Trace := [QueryResult.found ⟨some 0, 10⟩] }

/-- `baseEnv` except that the configured consumer address is
malformed, so `Web3.to_checksum_address` raises. -/
def envBadAddress : Env :=
  { baseEnv with consumerAddressRaw := "not-an-address", checksum := none }

/-- `baseEnv` except that the configured subscription id is not
numeric, so `int(SUBSCRIPTION_ID_RAW)` raises. -/
def envBadSubId : Env :=
  { baseEnv with subscriptionIdRaw := "seven", parseSubId := none }

/-- `baseEnv` except that the second build/sign/broadcast sequence
raises after the first transaction confirms. -/
def envSend2Fault : Env :=
  { baseEnv with
    sendResult := fun k =>
      if k == 0 then Except.ok "0xt1" else Except.error "boom2" }

/-- A receipt found by the poller was one of the query answers. -/
lemma wait_for_receipt_mem (t : Nat) (tr : List QueryResult) (e : Nat)
    (r : Receipt) (h : wait_for_receipt t tr e = PollOutcome.received r) :
    QueryResult.found r ∈ tr := by
  induction tr generalizing e with
  | nil => simp [wait_for_receipt] at h
  | cons q rest ih =>
    cases q with
    | found r' =>
      simp [wait_for_receipt] at h
      simp [h]
    | hardError => simp [wait_for_receipt] at h
    | absent =>
      rw [wait_for_receipt] at h
      split at h
      · simp at h
      · exact List.mem_cons_of_mem _ (ih _ h)
    | notFound =>
      rw [wait_for_receipt] at h
      split at h
      · simp at h
      · exact List.mem_cons_of_mem _ (ih _ h)

/-- If the first `k` answers are soft and the `k`-th is a receipt that
arrives before the deadline, the poller returns that receipt. -/
lemma wait_for_receipt_complete (t : Nat) (tr : List QueryResult)
    (k : Nat) (r : Receipt) (e : Nat)
    (hsoft : ∀ j, j < k → ∃ q, tr[j]? = some q ∧ q.isSoft = true)
    (hk : tr[k]? = some (QueryResult.found r))
    (hb : e + 2 * k ≤ t + 2) :
    wait_for_receipt t tr e = PollOutcome.received r := by
  induction tr generalizing k e with
  | nil => simp at hk
  | cons q rest ih =>
    cases k with
    | zero =>
      simp at hk
      subst hk
      rfl
    | succ k' =>
      obtain ⟨q0, hq0, hq0soft⟩ := hsoft 0 (Nat.succ_pos _)
      simp at hq0
      subst hq0
      have he : ¬ t < e := by omega
      have hrec : wait_for_receipt t (q :: rest) e
          = wait_for_receipt t rest (e + 2) := by
        cases q <;> simp_all [QueryResult.isSoft, wait_for_receipt]
      rw [hrec]
      exact ih k' (e + 2)
        (fun j hj => by
          obtain ⟨q', hq', hq's⟩ := hsoft (j + 1) (by omega)
          exact ⟨q', by simpa using hq', hq's⟩)
        (by simpa using hk) (by omega)

/-- With a long enough answer trace the poller's loop has ended. -/
lemma wait_for_receipt_terminates (t : Nat) (tr : List QueryResult)
    (e : Nat) (h1 : 1 ≤ tr.length) (h2 : t + 2 < e + 2 * tr.length) :
    wait_for_receipt t tr e ≠ PollOutcome.pending := by
  induction tr generalizing e with
  | nil => simp at h1
  | cons q rest ih =>
    cases q with
    | found r => simp [wait_for_receipt]
    | hardError => simp [wait_for_receipt]
    | absent =>
      rw [wait_for_receipt]
      split
      · simp
      · rename_i hlt
        cases rest with
        | nil => simp at h2; omega
        | cons q' rest' =>
          exact ih (e + 2) (by simp) (by simp at h2 ⊢; omega)
    | notFound =>
      rw [wait_for_receipt]
      split
      · simp
      · rename_i hlt
        cases rest with
        | nil => simp at h2; omega
        | cons q' rest' =>
          exact ih (e + 2) (by simp) (by simp at h2 ⊢; omega)

/-- A query-failure iteration before the deadline just retries. -/
lemma eventLoop_queryFail (ch : List ChainLog) (addr : String) (sb : Nat)
    (txh : String) (it : EventIter) (rest : List EventIter) (e : Nat)
    (hq : it.queryOk = false) (he : e ≤ 600) :
    eventLoop ch addr sb txh (it :: rest) e
      = eventLoop ch addr sb txh rest (e + 3) := by
  rw [eventLoop]
  rw [if_neg (by omega)]
  simp [hq]

/-- Once the 10-minute deadline has passed, the next iteration ends
the wait with the timeout failure. -/
lemma eventLoop_timeout (ch : List ChainLog) (addr : String) (sb : Nat)
    (txh : String) (it : EventIter) (rest : List EventIter) (e : Nat)
    (he : 600 < e) :
    eventLoop ch addr sb txh (it :: rest) e = .failEventTimeout txh := by
  rw [eventLoop]
  rw [if_pos he]

/-- If every remaining iteration's log query fails and the trace is
long enough for the deadline to pass, the wait ends in the timeout
failure. -/
lemma eventLoop_allFail (ch : List ChainLog) (addr : String) (sb : Nat)
    (txh : String) (iters : List EventIter) (e : Nat)
    (hall : ∀ it ∈ iters, it.queryOk = false)
    (h1 : 1 ≤ iters.length) (h2 : 600 + 3 < e + 3 * iters.length) :
    eventLoop ch addr sb txh iters e = .failEventTimeout txh := by
  induction iters generalizing e with
  | nil => simp at h1
  | cons it rest ih =>
    by_cases he : 600 < e
    · exact eventLoop_timeout ch addr sb txh it rest e he
    · rw [eventLoop_queryFail ch addr sb txh it rest e
        (hall it (by simp)) (by omega)]
      cases rest with
      | nil => simp at h2; omega
      | cons i2 r2 =>
        exact ih (e + 3) (fun x hx => hall x (List.mem_cons_of_mem _ hx))
          (by simp) (by simp at h2 ⊢; omega)

/-- With a successful query whose filtered result is non-empty, the
loop decodes the head entry and reports it. -/
lemma eventLoop_found_head (ch : List ChainLog) (addr : String) (sb : Nat)
    (txh : String) (it : EventIter) (rest : List EventIter) (e : Nat)
    (l : ChainLog) (more : List ChainLog) (evt : RespEvent)
    (he : e ≤ 600) (hq : it.queryOk = true)
    (hf : getLogsFilter ch sb it.latest addr = l :: more)
    (hevt : l.event = some evt) :
    eventLoop ch addr sb txh (it :: rest) e
      = .eventResult (classify_ok (err_hex evt.err)) txh
          evt.requestId evt.response (err_hex evt.err) := by
  rw [eventLoop]
  rw [if_neg (by omega)]
  simp [hq, hf, hevt]

/-- With a successful query whose head entry the decoder rejects, the
fault escapes the loop uncaught (nothing in the source catches
`process_log`). -/
lemma eventLoop_decode_fault (ch : List ChainLog) (addr : String) (sb : Nat)
    (txh : String) (it : EventIter) (rest : List EventIter) (e : Nat)
    (l : ChainLog) (more : List ChainLog)
    (he : e ≤ 600) (hq : it.queryOk = true)
    (hf : getLogsFilter ch sb it.latest addr = l :: more)
    (hevt : l.event = none) :
    eventLoop ch addr sb txh (it :: rest) e
      = Outcome.uncaughtError "process_log" := by
  rw [eventLoop]
  rw [if_neg (by omega)]
  simp [hq, hf, hevt]

/-- The success flag is true exactly on the three literal sentinels. -/
lemma classify_ok_iff (h : String) :
    classify_ok h = true ↔ (h = "0x" ∨ h = "0x00" ∨ h = "0x0000") := by
  simp only [classify_ok, Bool.or_eq_true, beq_iff_eq]
  tauto

/-- Among the sixteen digits only `0` renders as the character `'0'`. -/
lemma hexDigit_zero : ∀ d < 16, (hexDigit d = '0' ↔ d = 0) := by decide

/-- Character-level form of one `bytes.hex()` step. -/
lemma bytesToHex_data (b : Nat) (rest : List Nat) :
    (bytesToHex (b :: rest)).data
      = hexDigit (b / 16 % 16) :: hexDigit (b % 16)
        :: (bytesToHex rest).data := by
  simp [bytesToHex, byteToHex, String.data_append]

/-- `bytes.hex()` renders two characters per byte. -/
lemma bytesToHex_length (bs : List Nat) :
    (bytesToHex bs).data.length = 2 * bs.length := by
  induction bs with
  | nil => rfl
  | cons b rest ih => simp [bytesToHex_data, ih]; omega

/-- Character-level form of the normalized error string. -/
lemma err_hex_data (bs : List Nat) :
    (err_hex bs).data = '0' :: 'x' :: (bytesToHex bs).data := by
  simp [err_hex, String.data_append]

/-- C9: in every Response-wait iteration a failing log query is
treated like an empty result — the loop just retries after its
3-unit delay — and never produces a fatal outcome; only the 600-unit
(10-minute) deadline elapsing ends the wait, with the
`waitForResponse` failure Outcome carrying the request transaction
hash. -/
theorem eventCorrelator_queryFailure_transient :
    (∀ ch addr sb txh it rest e, it.queryOk = false → e ≤ 600 →
      eventLoop ch addr sb txh (it :: rest) e
        = eventLoop ch addr sb txh rest (e + 3)) ∧
    (∀ ch addr sb txh it rest e, 600 < e →
      eventLoop ch addr sb txh (it :: rest) e
        = Outcome.failEventTimeout txh) ∧
    (∀ ch addr sb txh iters, (∀ it ∈ iters, it.queryOk = false) →
      600 + 3 < 3 * iters.length →
      eventLoop ch addr sb txh iters 0 = Outcome.failEventTimeout txh) :=
  ⟨fun ch addr sb txh it rest e hq he =>
      eventLoop_queryFail ch addr sb txh it rest e hq he,
    fun ch addr sb txh it rest e he =>
      eventLoop_timeout ch addr sb txh it rest e he,
    fun ch addr sb txh iters hall h2 =>
      eventLoop_allFail ch addr sb txh iters 0 hall (by omega) (by omega)⟩

/-- Witness for C9: a failing query at the first iteration retries; a
trace of 202 failing queries exhausts the 600-unit deadline and ends
in the `waitForResponse` timeout failure. -/
theorem eventCorrelator_queryFailure_transient_witness :
    eventLoop [] "0xC" 20 "0xt2" [⟨25, false⟩] 0
      = eventLoop [] "0xC" 20 "0xt2" [] 3 ∧
    eventLoop [] "0xC" 20 "0xt2" [⟨25, true⟩] 601
      = Outcome.failEventTimeout "0xt2" ∧
    eventLoop [] "0xC" 20 "0xt2" (List.replicate 202 ⟨25, false⟩) 0
      = Outcome.failEventTimeout "0xt2" := by
  refine ⟨?_, ?_, ?_⟩
  · exact eventCorrelator_queryFailure_transient.1 [] "0xC" 20 "0xt2"
      ⟨25, false⟩ [] 0 (by decide) (by decide)
  · exact eventCorrelator_queryFailure_transient.2.1 [] "0xC" 20 "0xt2"
      ⟨25, true⟩ [] 601 (by decide)
  · exact eventCorrelator_queryFailure_transient.2.2 [] "0xC" 20 "0xt2" _
      (fun it hit => by
        rw [List.eq_of_mem_replicate hit])
      (by rw [List.length_replicate]; omega)

/-- C10: provider-side matching uses only the block window, the
contract address and topic0 — never a `requestId` — and on a
non-empty batch the loop decodes and reports exactly the head (the
earliest matching entry), whatever its `requestId` is and whatever
further entries the batch holds. -/
theorem eventCorrelator_first_match_only :
    (∀ l ch fb tb addr, l ∈ getLogsFilter ch fb tb addr ↔
      (l ∈ ch ∧ fb ≤ l.blockNumber ∧ l.blockNumber ≤ tb ∧
        l.address = addr ∧ l.topic0 = event_sig)) ∧
    (∀ ch addr sb txh it rest e l more evt, e ≤ 600 → it.queryOk = true →
      getLogsFilter ch sb it.latest addr = l :: more → l.event = some evt →
      eventLoop ch addr sb txh (it :: rest) e
        = Outcome.eventResult (classify_ok (err_hex evt.err)) txh
            evt.requestId evt.response (err_hex evt.err)) := by
  constructor
  · intro l ch fb tb addr
    simp [getLogsFilter, List.mem_filter, and_assoc]
  · intro ch addr sb txh it rest e l more evt he hq hf hevt
    exact eventLoop_found_head ch addr sb txh it rest e l more evt
      he hq hf hevt

/-- Witness for C10: two matching logs with distinct requestIds in the
scanned window; only the head (`"0xaaa"`) is reported and the second
entry is discarded. -/
theorem eventCorrelator_first_match_only_witness :
    eventLoop
      [⟨21, "0xC", event_sig, some ⟨"0xaaa", "ra", []⟩⟩,
       ⟨23, "0xC", event_sig, some ⟨"0xbbb", "rb", [7]⟩⟩]
      "0xC" 20 "0xt2" [⟨25, true⟩] 0
      = Outcome.eventResult true "0xt2" "0xaaa" "ra" "0x" ∧
    ("0xaaa" : String) ≠ "0xbbb" := by
  refine ⟨?_, by decide⟩
  exact eventCorrelator_first_match_only.2
    [⟨21, "0xC", event_sig, some ⟨"0xaaa", "ra", []⟩⟩,
     ⟨23, "0xC", event_sig, some ⟨"0xbbb", "rb", [7]⟩⟩]
    "0xC" 20 "0xt2" ⟨25, true⟩ [] 0
    ⟨21, "0xC", event_sig, some ⟨"0xaaa", "ra", []⟩⟩
    [⟨23, "0xC", event_sig, some ⟨"0xbbb", "rb", [7]⟩⟩]
    ⟨"0xaaa", "ra", []⟩ (by decide) (by decide) (by decide) (by decide)

/-- C4: the success flag is true exactly on the three literal hex
sentinels `"0x"`, `"0x00"`, `"0x0000"`; any other normalized value
classifies as an application failure while the emitted Outcome still
carries the decoded txHash, requestId, response and err fields, so
got-result-but-errored is distinguishable from no-result. -/
theorem responseErr_classification :
    (∀ h : String, classify_ok h = true ↔
      (h = "0x" ∨ h = "0x00" ∨ h = "0x0000")) ∧
    (∀ ch addr sb txh it rest e l more evt, e ≤ 600 → it.queryOk = true →
      getLogsFilter ch sb it.latest addr = l :: more → l.event = some evt →
      eventLoop ch addr sb txh (it :: rest) e
        = Outcome.eventResult (classify_ok (err_hex evt.err)) txh
            evt.requestId evt.response (err_hex evt.err)) := by
  constructor
  · exact fun h => classify_ok_iff h
  · intro ch addr sb txh it rest e l more evt he hq hf hevt
    exact eventLoop_found_head ch addr sb txh it rest e l more evt
      he hq hf hevt

/-- Witness for C4: a one-byte error payload `0x09` is classified as
failure yet the Outcome still carries the decoded fields. -/
theorem responseErr_classification_witness :
    classify_ok "0x00" = true ∧
    eventLoop [⟨22, "0xC", event_sig, some ⟨"0xreq", "resp", [9]⟩⟩]
      "0xC" 20 "0xt2" [⟨25, true⟩] 0
      = Outcome.eventResult false "0xt2" "0xreq" "resp" "0x09" := by
  refine ⟨(responseErr_classification.1 "0x00").mpr (Or.inr (Or.inl rfl)), ?_⟩
  exact responseErr_classification.2
    [⟨22, "0xC", event_sig, some ⟨"0xreq", "resp", [9]⟩⟩]
    "0xC" 20 "0xt2" ⟨25, true⟩ [] 0
    ⟨22, "0xC", event_sig, some ⟨"0xreq", "resp", [9]⟩⟩ []
    ⟨"0xreq", "resp", [9]⟩ (by decide) (by decide) (by decide) (by decide)

/-- C1: for a readable base gas price `p`, `build_fees` returns a
quote with the fixed 1-gwei priority fee and a max fee of `2p` plus
that priority constant; when the gas-price read raises, the fixed
10-gwei default is substituted for `p` and the estimator still
returns normally. -/
theorem feeEstimator_build_fees_spec :
    (∀ p : Nat, build_fees (some p) =
      { maxFeePerGas := 2 * p + gwei 1, maxPriorityFeePerGas := gwei 1 }) ∧
    build_fees none =
      { maxFeePerGas := 2 * gwei 10 + gwei 1,
        maxPriorityFeePerGas := gwei 1 } := by
  refine ⟨fun p => ?_, by decide⟩
  simp [build_fees, FeeQuote.mk.injEq]
  omega

/-- C2: the receipt poller (1) returns immediately on a reported
receipt, (2) propagates a hard transport error, (3) treats both
"not found" shapes (`TransactionNotFound` and an absent result) as
not-yet-mined, retrying after the fixed 2-time-unit delay while the
deadline has not passed, (4) raises `TimeoutError` on a soft answer
once the timeout measured from loop entry has elapsed, (5) returns a
receipt only if the endpoint reported it, (6) returns the receipt
whenever the endpoint reports one within the timeout window, and
(7) with enough answers the loop always ends in one of those three
ways. -/
theorem receiptPoller_wait_for_receipt_spec :
    (∀ t rest e r, wait_for_receipt t (QueryResult.found r :: rest) e
      = PollOutcome.received r) ∧
    (∀ t rest e, wait_for_receipt t (QueryResult.hardError :: rest) e
      = PollOutcome.transportError) ∧
    (∀ t q rest e, q.isSoft = true → e ≤ t →
      wait_for_receipt t (q :: rest) e = wait_for_receipt t rest (e + 2)) ∧
    (∀ t q rest e, q.isSoft = true → t < e →
      wait_for_receipt t (q :: rest) e = PollOutcome.timedOut) ∧
    (∀ t tr e r, wait_for_receipt t tr e = PollOutcome.received r →
      QueryResult.found r ∈ tr) ∧
    (∀ t tr k r, (∀ j, j < k → ∃ q, tr[j]? = some q ∧ q.isSoft = true) →
      tr[k]? = some (QueryResult.found r) → 2 * k ≤ t + 2 →
      wait_for_receipt t tr 0 = PollOutcome.received r) ∧
    (∀ t tr, t + 2 < 2 * tr.length →
      wait_for_receipt t tr 0 ≠ PollOutcome.pending) := by
  refine ⟨fun t rest e r => rfl, fun t rest e => rfl,
    fun t q rest e hs he => ?_, fun t q rest e hs ht => ?_,
    wait_for_receipt_mem,
    fun t tr k r hsoft hk hb =>
      wait_for_receipt_complete t tr k r 0 hsoft hk (by omega),
    fun t tr h =>
      wait_for_receipt_terminates t tr 0 (by omega) (by omega)⟩
  · cases q <;> simp_all [QueryResult.isSoft, wait_for_receipt]
  · cases q <;> simp_all [QueryResult.isSoft, wait_for_receipt]

/-- Witness for C2: concrete instances discharging each hypothesis;
a receipt reported on the third query (after two soft answers) is
returned, and an all-soft trace of 152 answers against the 300-unit
timeout ends the loop. -/
theorem receiptPoller_wait_for_receipt_spec_witness :
    wait_for_receipt 300 [QueryResult.absent, QueryResult.notFound,
      QueryResult.found ⟨some 1, 10⟩] 0
      = PollOutcome.received ⟨some 1, 10⟩ ∧
    wait_for_receipt 300 (QueryResult.notFound ::
      [QueryResult.found ⟨some 1, 10⟩]) 4
      = wait_for_receipt 300 [QueryResult.found ⟨some 1, 10⟩] 6 ∧
    wait_for_receipt 300 [QueryResult.absent] 301 = PollOutcome.timedOut ∧
    wait_for_receipt 300 (List.replicate 152 QueryResult.absent) 0
      ≠ PollOutcome.pending := by
  refine ⟨?_, ?_, ?_, ?_⟩
  · exact receiptPoller_wait_for_receipt_spec.2.2.2.2.2.1 300 _ 2 _
      (by decide) (by decide) (by decide)
  · exact receiptPoller_wait_for_receipt_spec.2.2.1 300 _ _ 4
      (by decide) (by decide)
  · exact receiptPoller_wait_for_receipt_spec.2.2.2.1 300 _ _ 301
      (by decide) (by decide)
  · exact receiptPoller_wait_for_receipt_spec.2.2.2.2.2.2 300 _ (by simp)

/-- C3: whenever the first (config) transaction's receipt reports a
non-success status, `main` halts with the `FAILED("setSource")`
Outcome naming the stage, the transaction hash and the status, and
the action log contains no `sendRequest` transaction: the
SUBMIT_REQUEST stage is never attempted. -/
theorem orchestrator_configRevert_halts (env : Env) (a : String) (s : Nat)
    (txh1 : String) (r1 : Receipt)
    (h1 : (env.rpcUrl == "") = false)
    (h2 : (env.privateKey == "") = false)
    (h3 : (env.consumerAddressRaw == "") = false)
    (h4 : (env.subscriptionIdRaw == "") = false)
    (h5 : env.checksum = some a)
    (h6 : env.parseSubId = some s)
    (h7 : env.chainId = some 11155111)
    (h8 : env.sourceExists = true)
    (h9 : env.sendResult 0 = Except.ok txh1)
    (h10 : wait_for_receipt 300 env.receipt1Trace 0 = PollOutcome.received r1)
    (h11 : r1.status ≠ some 1) :
    mainRun env = (Outcome.failStageRevert "setSource" txh1 r1.status,
      [mkTx1 env 11155111 a]) ∧
    ∀ t ∈ (mainRun env).2, t.call.isSendRequest = false := by
  have h11b : (r1.status != some 1) = true := by
    simp [bne_iff_ne, h11]
  have hmain : mainRun env
      = (Outcome.failStageRevert "setSource" txh1 r1.status,
        [mkTx1 env 11155111 a]) := by
    simp only [mainRun, h1, h2, h3, h4, h5, h6, h7, h8, h9, h10, h11b,
      Bool.false_eq_true, if_false, bne_self_eq_false, Bool.not_true, if_true]
  refine ⟨hmain, ?_⟩
  rw [hmain]
  intro t ht
  simp at ht
  subst ht
  rfl

/-- Witness for C3: the concrete run whose first receipt carries
status 0 halts at `setSource` with only the config transaction ever
built. -/
theorem orchestrator_configRevert_halts_witness :
    mainRun envConfigRevert
      = (Outcome.failStageRevert "setSource" "0xt1" (some 0),
        [mkTx1 envConfigRevert 11155111 "0xC"]) :=
  (orchestrator_configRevert_halts envConfigRevert "0xC" 7 "0xt1"
    ⟨some 0, 10⟩ (by decide) (by decide) (by decide) (by decide) (by decide)
    (by decide) (by decide) (by decide) (by rfl) (by decide)
    (by decide)).1

/-- Counterexample to C5 as stated: a three-byte all-zero error
payload normalizes to `"0x000000"`, which is not in the literal
allow-list, so the run's Outcome carries success flag `false` even
though the payload is entirely zero bytes. -/
theorem allZero_err_counterexample :
    (([0, 0, 0] : List Nat).all (· == 0)) = true ∧
    (mainRun envAllZeroErr).1
      = Outcome.eventResult false "0xt2" "0xreq" "42" "0x000000" := by
  decide

/-- C5 (amended): over byte values (< 256), the success flag is true
exactly when the error payload is empty, a single zero byte, or two
zero bytes — the payloads whose normalized hex is one of the three
literal sentinels; three or more zero bytes classify as failure. -/
theorem allZero_classification (bs : List Nat) (hb : ∀ b ∈ bs, b < 256) :
    (classify_ok (err_hex bs) = true ↔ (bs = [] ∨ bs = [0] ∨ bs = [0, 0])) := by
  rw [classify_ok_iff]
  constructor
  · intro h
    rcases h with h | h | h
    · left
      have hd := congrArg String.data h
      rw [err_hex_data] at hd
      have h0 : (bytesToHex bs).data = [] := by
        have hx : ('0' :: 'x' :: (bytesToHex bs).data) = ['0', 'x'] := hd
        simpa using hx
      have hlen := bytesToHex_length bs
      rw [h0] at hlen
      simp at hlen
      exact hlen
    · right; left
      have hd := congrArg String.data h
      rw [err_hex_data] at hd
      have h0 : (bytesToHex bs).data = ['0', '0'] := by
        have hx : ('0' :: 'x' :: (bytesToHex bs).data) = ['0', 'x', '0', '0'] :=
          hd
        simpa using hx
      have hlen := bytesToHex_length bs
      rw [h0] at hlen
      simp at hlen
      match bs, hlen with
      | [b], _ =>
        rw [bytesToHex_data] at h0
        simp at h0
        obtain ⟨hc1, hc2, _⟩ := h0
        have hb1 : b / 16 % 16 = 0 :=
          (hexDigit_zero _ (Nat.mod_lt _ (by omega))).mp hc1
        have hb2 : b % 16 = 0 :=
          (hexDigit_zero _ (Nat.mod_lt _ (by omega))).mp hc2
        have hblt : b < 256 := hb b (by simp)
        have hz : b = 0 := by omega
        simp [hz]
    · right; right
      have hd := congrArg String.data h
      rw [err_hex_data] at hd
      have h0 : (bytesToHex bs).data = ['0', '0', '0', '0'] := by
        have hx : ('0' :: 'x' :: (bytesToHex bs).data)
            = ['0', 'x', '0', '0', '0', '0'] := hd
        simpa using hx
      have hlen := bytesToHex_length bs
      rw [h0] at hlen
      simp at hlen
      match bs, hlen with
      | [b1, b2], _ =>
        rw [bytesToHex_data, bytesToHex_data] at h0
        simp at h0
        obtain ⟨hc1, hc2, hc3, hc4, _⟩ := h0
        have hb1 : b1 / 16 % 16 = 0 :=
          (hexDigit_zero _ (Nat.mod_lt _ (by omega))).mp hc1
        have hb2 : b1 % 16 = 0 :=
          (hexDigit_zero _ (Nat.mod_lt _ (by omega))).mp hc2
        have hb3 : b2 / 16 % 16 = 0 :=
          (hexDigit_zero _ (Nat.mod_lt _ (by omega))).mp hc3
        have hb4 : b2 % 16 = 0 :=
          (hexDigit_zero _ (Nat.mod_lt _ (by omega))).mp hc4
        have hblt1 : b1 < 256 := hb b1 (by simp)
        have hblt2 : b2 < 256 := hb b2 (by simp)
        have e1 : b1 = 0 := by omega
        have e2 : b2 = 0 := by omega
        simp [e1, e2]
  · rintro (rfl | rfl | rfl) <;> decide

/-- Witness for C5 (amended): the one-zero-byte payload classifies as
success. -/
theorem allZero_classification_witness :
    classify_ok (err_hex [0]) = true :=
  (allZero_classification [0] (by decide)).mpr (Or.inr (Or.inl rfl))

/-- Counterexample to C6 as stated: when the chain's price signal
moves after the first confirmation (read 0 gives 100 wei, a fresh
read would give 999), both transactions still carry the quote from
read 0; the second transaction's fee fields do not come from a new
read performed after the first transaction is confirmed. -/
theorem fees_not_fresh_counterexample :
    ((mainRun envGasMoves).2.map BuiltTx.fees)
      = [build_fees (some 100), build_fees (some 100)] ∧
    freshSecondFeeQuote envGasMoves = build_fees (some 999) ∧
    build_fees (some 100) ≠ build_fees (some 999) := by
  decide

/-- C6 (amended): a single FeeQuote is computed once, from the one
gas-price read performed before the first transaction, and reused
unchanged for every transaction the run builds. -/
theorem fees_single_quote (env : Env) (t : BuiltTx)
    (ht : t ∈ (mainRun env).2) :
    t.fees = build_fees (env.gasRead 0) := by
  simp only [mainRun] at ht
  repeat' split at ht
  all_goals (try simp_all [mkTx1, mkTx2])
  all_goals (rcases ht with rfl | rfl <;> rfl)

/-- Witness for C6 (amended): the second transaction of the healthy
run carries the quote from gas-price read 0. -/
theorem fees_single_quote_witness :
    (mkTx2 baseEnv 11155111 "0xC" 7).fees = build_fees (baseEnv.gasRead 0) :=
  fees_single_quote baseEnv (mkTx2 baseEnv 11155111 "0xC" 7) (by decide)

/-- C7: in a run that reaches the second stage, the first transaction
uses transaction-count read 0 and the second uses transaction-count
read 1 — a fresh per-sender fetch performed after the first receipt —
whatever value that read returns (in particular it is never computed
as the first nonce plus one). -/
theorem nonce_refetched (env : Env) (a : String) (s : Nat)
    (txh1 : String) (r1 : Receipt)
    (h1 : (env.rpcUrl == "") = false)
    (h2 : (env.privateKey == "") = false)
    (h3 : (env.consumerAddressRaw == "") = false)
    (h4 : (env.subscriptionIdRaw == "") = false)
    (h5 : env.checksum = some a)
    (h6 : env.parseSubId = some s)
    (h7 : env.chainId = some 11155111)
    (h8 : env.sourceExists = true)
    (h9 : env.sendResult 0 = Except.ok txh1)
    (h10 : wait_for_receipt 300 env.receipt1Trace 0 = PollOutcome.received r1)
    (h11 : r1.status = some 1) :
    (mainRun env).2.map BuiltTx.nonce
      = [env.nonceRead 0, env.nonceRead 1] := by
  have h11b : (r1.status != some 1) = false := by
    simp [h11]
  simp only [mainRun, h1, h2, h3, h4, h5, h6, h7, h8, h9, h10, h11b,
    Bool.false_eq_true, if_false, bne_self_eq_false, Bool.not_true, if_true]
  repeat' split
  all_goals simp [mkTx1, mkTx2]

/-- Witness for C7: in the healthy run the nonce reads return 5 and
then 9 — the second transaction carries 9, not 5 + 1. -/
theorem nonce_refetched_witness :
    (mainRun baseEnv).2.map BuiltTx.nonce = [5, 9] ∧ (9 : Nat) ≠ 5 + 1 := by
  constructor
  · exact nonce_refetched baseEnv "0xC" 7 "0xt1" ⟨some 1, 10⟩
      (by decide) (by decide) (by decide) (by decide) (by decide)
      (by decide) (by decide) (by decide) (by rfl) (by decide)
      (by decide)
  · decide

/-- Counterexample to C8 as stated: a malformed consumer address and a
non-numeric subscription id both escape `main` as uncaught faults —
no tagged Outcome with a stage name is produced for them. -/
theorem uncaught_fault_counterexample :
    (mainRun envBadAddress).1 = Outcome.uncaughtError "to_checksum_address" ∧
    (mainRun envBadSubId).1 = Outcome.uncaughtError "int(SUBSCRIPTION_ID)" := by
  decide

/-- C8 (amended): faults inside either submission stage are captured
as tagged Outcomes naming that stage (`setSource` when the first
build/sign/broadcast sequence raises, `sendRequest` when the second
does, after the first transaction confirmed), but a malformed
consumer address, a non-numeric subscription id, and a decoder fault
on a matched log all propagate out of the engine as uncaught
faults. -/
theorem orchestrator_error_paths :
    (∀ env e, (env.rpcUrl == "") = false → (env.privateKey == "") = false →
      (env.consumerAddressRaw == "") = false →
      (env.subscriptionIdRaw == "") = false →
      (∃ a, env.checksum = some a) → (∃ s, env.parseSubId = some s) →
      env.chainId = some 11155111 → env.sourceExists = true →
      env.sendResult 0 = Except.error e →
      (mainRun env).1 = Outcome.failStageError "setSource" e) ∧
    (∀ env e txh1 r1, (env.rpcUrl == "") = false →
      (env.privateKey == "") = false →
      (env.consumerAddressRaw == "") = false →
      (env.subscriptionIdRaw == "") = false →
      (∃ a, env.checksum = some a) → (∃ s, env.parseSubId = some s) →
      env.chainId = some 11155111 → env.sourceExists = true →
      env.sendResult 0 = Except.ok txh1 →
      wait_for_receipt 300 env.receipt1Trace 0 = PollOutcome.received r1 →
      r1.status = some 1 →
      env.sendResult 1 = Except.error e →
      (mainRun env).1 = Outcome.failStageError "sendRequest" e) ∧
    (∀ env, (env.rpcUrl == "") = false → (env.privateKey == "") = false →
      (env.consumerAddressRaw == "") = false →
      (env.subscriptionIdRaw == "") = false →
      env.checksum = none →
      (mainRun env).1 = Outcome.uncaughtError "to_checksum_address") ∧
    (∀ env a, (env.rpcUrl == "") = false → (env.privateKey == "") = false →
      (env.consumerAddressRaw == "") = false →
      (env.subscriptionIdRaw == "") = false →
      env.checksum = some a → env.parseSubId = none →
      (mainRun env).1 = Outcome.uncaughtError "int(SUBSCRIPTION_ID)") ∧
    (∀ ch addr sb txh it rest e l more, e ≤ 600 → it.queryOk = true →
      getLogsFilter ch sb it.latest addr = l :: more → l.event = none →
      eventLoop ch addr sb txh (it :: rest) e
        = Outcome.uncaughtError "process_log") := by
  refine ⟨?_, ?_, ?_, ?_, ?_⟩
  · rintro env e h1 h2 h3 h4 ⟨a, h5⟩ ⟨s, h6⟩ h7 h8 h9
    simp only [mainRun, h1, h2, h3, h4, h5, h6, h7, h8, h9,
      Bool.false_eq_true, if_false, bne_self_eq_false, Bool.not_true, if_true]
  · rintro env e txh1 r1 h1 h2 h3 h4 ⟨a, h5⟩ ⟨s, h6⟩ h7 h8 h9 h10 h11 h12
    have h11b : (r1.status != some 1) = false := by
      simp [h11]
    simp only [mainRun, h1, h2, h3, h4, h5, h6, h7, h8, h9, h10, h11b, h12,
      Bool.false_eq_true, if_false, bne_self_eq_false, Bool.not_true, if_true]
  · intro env h1 h2 h3 h4 h5
    simp only [mainRun, h1, h2, h3, h4, h5, Bool.false_eq_true, if_false]
  · intro env a h1 h2 h3 h4 h5 h6
    simp only [mainRun, h1, h2, h3, h4, h5, h6, Bool.false_eq_true, if_false]
  · intro ch addr sb txh it rest e l more he hq hf hevt
    exact eventLoop_decode_fault ch addr sb txh it rest e l more he hq hf hevt

/-- Witness for C8 (amended): a broadcast fault at either stage is
tagged with that stage's name; the two malformed-configuration inputs
and a decoder fault escape uncaught. -/
theorem orchestrator_error_paths_witness :
    (mainRun { baseEnv with sendResult := fun _ => Except.error "boom" }).1
      = Outcome.failStageError "setSource" "boom" ∧
    (mainRun envSend2Fault).1
      = Outcome.failStageError "sendRequest" "boom2" ∧
    (mainRun envBadAddress).1 = Outcome.uncaughtError "to_checksum_address" ∧
    (mainRun envBadSubId).1 = Outcome.uncaughtError "int(SUBSCRIPTION_ID)" ∧
    eventLoop [⟨22, "0xC", event_sig, none⟩] "0xC" 20 "0xt2" [⟨25, true⟩] 0
      = Outcome.uncaughtError "process_log" := by
  refine ⟨?_, ?_, ?_, ?_, ?_⟩
  · exact orchestrator_error_paths.1 _ "boom" (by decide) (by decide)
      (by decide) (by decide) ⟨"0xC", by decide⟩ ⟨7, by decide⟩ (by decide)
      (by decide) (by rfl)
  · exact orchestrator_error_paths.2.1 envSend2Fault "boom2" "0xt1"
      ⟨some 1, 10⟩ (by decide) (by decide) (by decide) (by decide)
      ⟨"0xC", by decide⟩ ⟨7, by decide⟩ (by decide) (by decide) (by rfl)
      (by decide) (by decide) (by rfl)
  · exact orchestrator_error_paths.2.2.1 envBadAddress (by decide) (by decide)
      (by decide) (by decide) (by decide)
  · exact orchestrator_error_paths.2.2.2.1 envBadSubId "0xC" (by decide)
      (by decide) (by decide) (by decide) (by decide) (by decide)
  · exact orchestrator_error_paths.2.2.2.2
      [⟨22, "0xC", event_sig, none⟩] "0xC" 20 "0xt2" ⟨25, true⟩ [] 0
      ⟨22, "0xC", event_sig, none⟩ [] (by decide) (by decide) (by decide)
      (by decide)
